import Mathlib

/-!
Shallow embedding of the BookMyShow monitor bot (`bot.py`): the SQLite-backed
data model (`users`, `snapshots` tables), the `fetch_movie_data` retrieval
boundary, and the `monitor_task` cycle with its per-user diff-and-notify logic.
Machine state is passed explicitly; a Python dict mapping venue names to lists
of show-time strings is an association list compared up to key lookup.
-/

namespace BmsBot

/-- A scraped signature: the Python dict `{venue_name: [time, ...]}` stored as
`data_json` in the `snapshots` table.  Represented as an association list in
insertion order, compared with dict semantics (`dictEqB`). -/
abbrev Sig := List (String × List String)

/-- Python dict key lookup (`last[t]` / `t in last`): first matching key. -/
def dictLookup : Sig → String → Option (List String)
  | [], _ => none
  | (k', v) :: rest, k => if k' = k then some v else dictLookup rest k

/-- Python dict equality `curr == last`: same keys with equal values,
insertion order irrelevant.  Checked over the keys of both operands. -/
def dictEqB (a b : Sig) : Bool :=
  (a.map Prod.fst).all (fun k => dictLookup a k == dictLookup b k) &&
  (b.map Prod.fst).all (fun k => dictLookup a k == dictLookup b k)

/-- `a` is contained in `b` as a signature: every venue of `a` is a venue of
`b` and its slots all occur among that venue's slots in `b`.  Together with
`dictEqB a b = false` this states that `a` arose from `b` by removing venues
or slots only. -/
def sigSubsetB (a b : Sig) : Bool :=
  a.all (fun p =>
    match dictLookup b p.1 with
    | none => false
    | some slots => p.2.all (fun s => slots.contains s))

/-- One row of the `users` table.  Columns `movie_name`, `movie_url`, `city`
and `notify_mode` are nullable TEXT; `is_active INTEGER DEFAULT 1`. -/
structure UserRec where
  user_id : Int
  chat_id : Int
  movie_name : Option String
  movie_url : Option String
  city : Option String
  notify_mode : Option String
  is_active : Int
deriving Repr, DecidableEq

/-- The row created by `INSERT INTO users (user_id, chat_id) VALUES (?, ?)`:
all other columns NULL, `is_active` takes its column default 1. -/
def defaultUser (uid chat : Int) : UserRec :=
  ⟨uid, chat, none, none, none, none, 1⟩

/-- The `**kwargs` of `Database.update_user`: each field is `some value` when
the keyword was supplied and `none` when omitted.  Only these four columns are
ever passed in the source. -/
structure UserKwargs where
  movie_name : Option String
  movie_url : Option String
  city : Option String
  notify_mode : Option String
deriving Repr, DecidableEq

/-- The empty `**kwargs` dict (as in the `/start` handler's call). -/
def noKwargs : UserKwargs := ⟨none, none, none, none⟩

/-- Effect of `UPDATE users SET k1 = ?, ... WHERE user_id = ?` on one row:
each supplied keyword overwrites its column, omitted columns are untouched. -/
def applyKwargs (u : UserRec) (kw : UserKwargs) : UserRec :=
  { u with
    movie_name := match kw.movie_name with
      | none => u.movie_name
      | some v => some v
    movie_url := match kw.movie_url with
      | none => u.movie_url
      | some v => some v
    city := match kw.city with
      | none => u.city
      | some v => some v
    notify_mode := match kw.notify_mode with
      | none => u.notify_mode
      | some v => some v }

/-- The opening of `Database.update_user`: `SELECT 1 ... WHERE user_id = ?`
and, when no row exists, `INSERT INTO users (user_id, chat_id)`. -/
def ensureUser (users : List UserRec) (uid chat : Int) : List UserRec :=
  if users.any (fun u => u.user_id == uid) then users
  else users ++ [defaultUser uid chat]

/-- `Database.update_user(user_id, chat_id, **kwargs)`: the existence check
plus conditional INSERT (`ensureUser`), then — only `if kwargs:` — UPDATE of
the supplied columns of the row with that `user_id`. -/
def update_user (users : List UserRec) (uid chat : Int) (kw : UserKwargs) :
    List UserRec :=
  if kw = noKwargs then ensureUser users uid chat
  else (ensureUser users uid chat).map
    (fun u => if u.user_id == uid then applyKwargs u kw else u)

/-- `SELECT * FROM users WHERE user_id = ?` (primary key: first match). -/
def findUser (users : List UserRec) (uid : Int) : Option UserRec :=
  users.find? (fun u => u.user_id == uid)

/-- `Database.get_active_users`:
`SELECT * FROM users WHERE is_active = 1 AND movie_url IS NOT NULL`. -/
def get_active_users (users : List UserRec) : List UserRec :=
  users.filter (fun u => u.is_active == 1 && u.movie_url.isSome)

/-- `Database.get_snapshot(user_id)`: returns the parsed `data_json` of the
row, and the empty dict `{}` when the row is missing or its json is falsy. -/
def get_snapshot (snaps : List (Int × Sig)) (uid : Int) : Sig :=
  match snaps.find? (fun p => p.1 == uid) with
  | some p => p.2
  | none => []

/-- `Database.save_snapshot(user_id, data)`:
`INSERT OR REPLACE INTO snapshots ...` keyed by `user_id`. -/
def save_snapshot (snaps : List (Int × Sig)) (uid : Int) (data : Sig) :
    List (Int × Sig) :=
  if snaps.any (fun p => p.1 == uid) then
    snaps.map (fun p => if p.1 == uid then (uid, data) else p)
  else snaps ++ [(uid, data)]

/-! ### The monitor cycle (`monitor_task`) -/

/-- State the monitor cycle acts on: the `snapshots` table plus the log of
Telegram messages handed to `app.bot.send_message` (pairs `(chat_id, msg)`). -/
structure MonState where
  snapshots : List (Int × Sig)
  sentMsgs : List (Int × String)
deriving Repr, DecidableEq

/-- External effects for one user in one cycle: the pair returned by
`fetch_movie_data` (`curr, err`), and whether `app.bot.send_message` would
succeed (`sendOk = false` means the await raises). -/
structure UserEnv where
  curr : Sig
  err : Option String
  sendOk : Bool
deriving Repr, DecidableEq

instance instDecEqExcept {ε α : Type} [DecidableEq ε] [DecidableEq α] :
    DecidableEq (Except ε α)
  | Except.ok x, Except.ok y =>
    match decEq x y with
    | isTrue h => isTrue (h ▸ rfl)
    | isFalse h => isFalse (fun hh => h (Except.ok.inj hh))
  | Except.ok _, Except.error _ => isFalse (fun hh => Except.noConfusion hh)
  | Except.error _, Except.ok _ => isFalse (fun hh => Except.noConfusion hh)
  | Except.error x, Except.error y =>
    match decEq x y with
    | isTrue h => isTrue (h ▸ rfl)
    | isFalse h => isFalse (fun hh => h (Except.error.inj hh))

/-- `new_theatres = [t for t in curr if t not in last]`: keys of the current
dict that are not keys of the stored snapshot. -/
def newTheatres (curr last : Sig) : List String :=
  (curr.map Prod.fst).filter (fun t => (dictLookup last t).isNone)

/-- `user['notify_mode'] in ['THEATRE', 'BOTH']` (NULL compares false). -/
def modeWantsTheatres (m : Option String) : Bool :=
  m == some "THEATRE" || m == some "BOTH"

/-- Python string interpolation of a nullable column (`f"...{city}..."`
prints `None` for NULL). -/
def optStr : Option String → String
  | some s => s
  | none => "None"

/-- `f"🚨 **New Theatres in {city}:**\n" + "\n".join(new_theatres)`. -/
def buildMsg (city : Option String) (ts : List String) : String :=
  "🚨 **New Theatres in " ++ optStr city ++ ":**\n" ++ String.intercalate "\n" ts

/-- The `msg` variable of the loop body: `msg = ""`, then assigned the theatre
alert exactly when `user['notify_mode'] in ['THEATRE', 'BOTH'] and
new_theatres` holds. -/
def monitorMsg (st : MonState) (user : UserRec) (env : UserEnv) : String :=
  if modeWantsTheatres user.notify_mode &&
      !(newTheatres env.curr (get_snapshot st.snapshots user.user_id)).isEmpty
  then buildMsg user.city (newTheatres env.curr (get_snapshot st.snapshots user.user_id))
  else ""

/-- Python truthiness of `not err` for the fetch's error slot: `None` and
the empty string are falsy, so the loop body treats them as success. -/
def errFalsy : Option String → Bool
  | none => true
  | some s => s == ""

/-- The body of the `for user in users` loop in `monitor_task`, after the
fetch returned `(env.curr, env.err)`:

* `if not err:` — truthiness, so the user is skipped only when `err` is a
  non-empty string (`errFalsy`);
* `last = db.get_snapshot(...)`, `new_theatres = ...`, `msg` as `monitorMsg`;
* `if msg:` (string truthiness): `await app.bot.send_message(...)` — which
  may raise, modelled by `Except.error ()`, aborting before the snapshot
  write — then `db.save_snapshot(user_id, curr)`;
* `elif curr != last:` silent `save_snapshot`, else nothing. -/
def processUser (st : MonState) (user : UserRec) (env : UserEnv) :
    Except Unit MonState :=
  if errFalsy env.err then
    if monitorMsg st user env == "" then
      if dictEqB env.curr (get_snapshot st.snapshots user.user_id) then
        Except.ok st
      else Except.ok
        { st with snapshots := save_snapshot st.snapshots user.user_id env.curr }
    else
      if env.sendOk then Except.ok
        { snapshots := save_snapshot st.snapshots user.user_id env.curr
          sentMsgs := st.sentMsgs ++ [(user.chat_id, monitorMsg st user env)] }
      else Except.error ()
  else Except.ok st

/-- One cycle over the work list read once from `get_active_users`.  The whole
`for` loop sits inside the single `try` of `monitor_task`, so the first raised
exception abandons the remaining users of the cycle: the result is the state
reached so far plus a crash flag (`True` = the outer `except` was entered). -/
def runCycle (st : MonState) : List (UserRec × UserEnv) → MonState × Bool
  | [] => (st, false)
  | (u, env) :: rest =>
    match processUser st u env with
    | Except.ok st' => runCycle st' rest
    | Except.error _ => (st, true)

/-- `CHECK_INTERVAL = int(os.getenv("CHECK_INTERVAL", "180"))`: the default. -/
def CHECK_INTERVAL_default : Nat := 180

/-- Seconds slept after a cycle: `await asyncio.sleep(CHECK_INTERVAL)` on the
normal path, `await asyncio.sleep(60)` in the `except` handler. -/
def cycleDelay (checkInterval : Nat) (crashed : Bool) : Nat :=
  if crashed then 60 else checkInterval

/-! ### The fetch boundary (`BrowserManager.fetch_movie_data`) -/

theorem buildMsg_ne_empty (c : Option String) (ts : List String) :
    buildMsg c ts ≠ "" := by
  intro h
  have hlen := congrArg String.length h
  simp only [buildMsg, String.length_append] at hlen
  have h1 : 0 < ("🚨 **New Theatres in " : String).length := by decide
  have h0 : ("" : String).length = 0 := rfl
  omega

theorem buildMsg_beq_empty (c : Option String) (ts : List String) :
    (buildMsg c ts == "") = false :=
  beq_eq_false_iff_ne.mpr (buildMsg_ne_empty c ts)

/-- `if not err:` — a truthy (non-empty) fetch error makes the loop body a
no-op. -/
theorem processUser_fetch_err (st : MonState) (u : UserRec) (env : UserEnv)
    (e : String) (h : env.err = some e) (he : e ≠ "") :
    processUser st u env = Except.ok st := by
  obtain ⟨curr, err, sendOk⟩ := env
  cases h
  have hf : errFalsy (some e) = false := beq_eq_false_iff_ne.mpr he
  simp [processUser, hf]

/-- Against an empty stored snapshot, every fetched venue is new. -/
theorem newTheatres_nil_right (curr : Sig) :
    newTheatres curr [] = curr.map Prod.fst := by
  simp [newTheatres, dictLookup]

/-- A signature contained in the stored one contributes no new theatre. -/
theorem newTheatres_eq_nil_of_subset (curr last : Sig)
    (h : sigSubsetB curr last = true) : newTheatres curr last = [] := by
  rw [newTheatres, List.filter_eq_nil_iff]
  intro t ht
  obtain ⟨p, hp, rfl⟩ := List.mem_map.mp ht
  have hall := (List.all_eq_true.mp h) p hp
  cases hd : dictLookup last p.1 with
  | none => rw [hd] at hall; simp at hall
  | some slots => simp [hd]

/-- A non-empty dict never equals the empty dict. -/
theorem dictEqB_nil_right (curr : Sig) (h : curr ≠ []) :
    dictEqB curr [] = false := by
  match curr, h with
  | (k, v) :: rest, _ =>
    simp [dictEqB, dictLookup]

theorem monitorMsg_of_no_new (st : MonState) (u : UserRec) (env : UserEnv)
    (h : newTheatres env.curr (get_snapshot st.snapshots u.user_id) = []) :
    monitorMsg st u env = "" := by
  simp [monitorMsg, h]

theorem monitorMsg_of_mode_false (st : MonState) (u : UserRec) (env : UserEnv)
    (h : modeWantsTheatres u.notify_mode = false) :
    monitorMsg st u env = "" := by
  simp [monitorMsg, h]

theorem monitorMsg_of_notifiable (st : MonState) (u : UserRec) (env : UserEnv)
    (h : (modeWantsTheatres u.notify_mode &&
      !(newTheatres env.curr (get_snapshot st.snapshots u.user_id)).isEmpty) = true) :
    monitorMsg st u env =
      buildMsg u.city (newTheatres env.curr (get_snapshot st.snapshots u.user_id)) := by
  simp [monitorMsg, h]

/-! ## C5 -/

def u5 : UserRec := ⟨5, 55, some "Film", some "https://x", some "Kochi", some "BOTH", 1⟩

def st5 : MonState := ⟨[(5, [("Cinema A", ["10:00"])])], []⟩

def env5 : UserEnv := ⟨[], some "403 Forbidden", true⟩

def env5e : UserEnv := ⟨[], some "", true⟩

/-- C5 counterexample: the fetch reports a non-None error whose text is the
empty string (`str(e)` of a message-less exception, with `data` still the
partial `{}`).  `if not err:` treats it as success: the cycle overwrites the
stored snapshot with the partial data, so a fetch-error cycle is not always
a no-op. -/
theorem C5_counterexample :
    env5e.err = some "" ∧
    runCycle st5 [(u5, env5e)] = (⟨[(5, [])], []⟩, false) ∧
    get_snapshot (runCycle st5 [(u5, env5e)]).1.snapshots 5 ≠
      get_snapshot st5.snapshots 5 := by
  decide

/-- C5 (amended): in any cycle in which the fetch reports a non-empty error
string (the 403 branch of `fetch_movie_data` or any caught exception with a
message), the loop body leaves the monitor state — stored snapshot and sent
messages — exactly unchanged for that subscriber.  The qualification
"non-empty" is forced by `if not err:`, which treats `err = ""` as success
(see the counterexample). -/
theorem C5_fetch_error_skips_user (st : MonState) (u : UserRec) (env : UserEnv)
    (e : String) (h : env.err = some e) (he : e ≠ "") :
    processUser st u env = Except.ok st :=
  processUser_fetch_err st u env e h he

theorem C5_witness :
    env5.err = some "403 Forbidden" ∧ ("403 Forbidden" : String) ≠ "" ∧
    processUser st5 u5 env5 = Except.ok st5 :=
  ⟨rfl, by decide,
    C5_fetch_error_skips_user st5 u5 env5 "403 Forbidden" rfl (by decide)⟩

/-! ## C2 -/

/-- C2 (amended): isolation holds for reported fetch failures — a subscriber
whose fetch returns an error leaves the cycle exactly as if that subscriber
were absent from the work list, so all other subscribers are processed and
persisted as usual.  (The original claim extended this to raised exceptions
in snapshot access or notification delivery; those abort the cycle, see the
counterexample.) -/
theorem C2_fetch_error_isolated (st : MonState)
    (pre post : List (UserRec × UserEnv)) (u : UserRec) (env : UserEnv)
    (e : String) (h : env.err = some e) (he : e ≠ "") :
    runCycle st (pre ++ (u, env) :: post) = runCycle st (pre ++ post) := by
  induction pre generalizing st with
  | nil =>
    simp [runCycle, processUser_fetch_err st u env e h he]
  | cons p pre ih =>
    obtain ⟨v, ev⟩ := p
    simp only [List.cons_append, runCycle]
    cases hp : processUser st v ev with
    | ok st' => exact ih st'
    | error err => rfl

def u2a : UserRec := ⟨1, 11, some "M", some "https://a", some "Chennai", some "BOTH", 1⟩

def env2a : UserEnv := ⟨[("Cinema A", ["10:00"])], none, false⟩

def u2b : UserRec := ⟨2, 22, some "M", some "https://a", some "Chennai", some "THEATRE", 1⟩

def env2b : UserEnv := ⟨[("Cinema B", ["12:00"])], none, true⟩

/-- C2 counterexample: subscriber 1's notification delivery raises
(`sendOk = false`); the cycle aborts with the crash flag set, and subscriber
2 — whose fetch succeeded with fresh data — is never processed: its snapshot
stays absent. -/
theorem C2_counterexample :
    runCycle ⟨[], []⟩ [(u2a, env2a), (u2b, env2b)] = (⟨[], []⟩, true) ∧
    get_snapshot (runCycle ⟨[], []⟩ [(u2a, env2a), (u2b, env2b)]).1.snapshots 2 = [] ∧
    env2b.err = none ∧ env2b.curr ≠ [] := by
  decide

theorem C2_witness :
    (⟨[("Cinema B", ["12:00"])], some "net down", true⟩ : UserEnv).err = some "net down" ∧
    ("net down" : String) ≠ "" ∧
    runCycle ⟨[], []⟩
        [(u2b, ⟨[("Cinema B", ["12:00"])], some "net down", true⟩),
         (u2a, ⟨[("Cinema A", ["10:00"])], none, true⟩)] =
      runCycle ⟨[], []⟩ [(u2a, ⟨[("Cinema A", ["10:00"])], none, true⟩)] :=
  ⟨rfl, by decide, C2_fetch_error_isolated ⟨[], []⟩ []
    [(u2a, ⟨[("Cinema A", ["10:00"])], none, true⟩)]
    u2b ⟨[("Cinema B", ["12:00"])], some "net down", true⟩ "net down" rfl (by decide)⟩

/-! ## C9 -/

/-- C9 counterexample: at the default configuration
(`CHECK_INTERVAL = 180`), the cooldown slept after a cycle-fatal error is 60
seconds — shorter, not longer, than the normal inter-cycle delay. -/
theorem C9_counterexample :
    cycleDelay CHECK_INTERVAL_default true = 60 ∧
    cycleDelay CHECK_INTERVAL_default false = 180 ∧
    ¬ cycleDelay CHECK_INTERVAL_default false < cycleDelay CHECK_INTERVAL_default true := by
  decide

/-- C9 (amended): the `except` path of `monitor_task` replaces the
configured inter-cycle delay with a fixed 60-second cooldown; that cooldown
exceeds the normal delay exactly when `CHECK_INTERVAL` is set below 60,
and with the default 180 it is strictly shorter. -/
theorem C9_error_cooldown_fixed_60 (ci : Nat) :
    cycleDelay ci true = 60 ∧ cycleDelay ci false = ci ∧
    (cycleDelay ci false < cycleDelay ci true ↔ ci < 60) :=
  ⟨rfl, rfl, Iff.rfl⟩

/-! ## C6 -/

/-- C6: when the fetched signature is a strict shrink of the stored one
(every venue and slot of `curr` already present in `last`, and the two
dicts unequal), the loop body sends nothing — for every notify mode, since
`new_theatres` is empty — and silently persists the shrunken signature as
the new snapshot. -/
theorem C6_shrinking_stored_silently (st : MonState) (u : UserRec) (env : UserEnv)
    (h1 : env.err = none)
    (h2 : sigSubsetB env.curr (get_snapshot st.snapshots u.user_id) = true)
    (h3 : dictEqB env.curr (get_snapshot st.snapshots u.user_id) = false) :
    processUser st u env =
      Except.ok { st with snapshots := save_snapshot st.snapshots u.user_id env.curr } := by
  have hnt := newTheatres_eq_nil_of_subset env.curr
    (get_snapshot st.snapshots u.user_id) h2
  have hmsg := monitorMsg_of_no_new st u env hnt
  obtain ⟨curr, err, sendOk⟩ := env
  cases h1
  simp only [processUser, errFalsy, hmsg]
  simp [h3]

def u6 : UserRec := ⟨6, 66, some "Film", some "https://x", some "Delhi", some "BOTH", 1⟩

def st6 : MonState :=
  ⟨[(6, [("Cinema A", ["10:00", "18:00"]), ("Cinema B", ["11:00"])])], []⟩

def env6 : UserEnv := ⟨[("Cinema A", ["10:00"])], none, true⟩

theorem C6_witness :
    env6.err = none ∧
    sigSubsetB env6.curr (get_snapshot st6.snapshots u6.user_id) = true ∧
    dictEqB env6.curr (get_snapshot st6.snapshots u6.user_id) = false ∧
    processUser st6 u6 env6 =
      Except.ok { st6 with snapshots := save_snapshot st6.snapshots u6.user_id env6.curr } :=
  ⟨rfl, by decide, by decide,
    C6_shrinking_stored_silently st6 u6 env6 rfl (by decide) (by decide)⟩

/-! ## C1 -/

def u1c : UserRec := ⟨1, 11, some "Film", some "https://x", some "Chennai", some "BOTH", 1⟩

def env1c : UserEnv := ⟨[("Cinema A", ["10:00"])], none, true⟩

/-- C1 counterexample: a subscriber with no stored snapshot (the state of a
fresh setup), notify mode `BOTH`, whose first successful fetch finds one
venue.  The loop body sends a notification — the baseline case is
notifiable in the code, contradicting the claim that no notification is
ever sent on the first capture. -/
theorem C1_counterexample :
    get_snapshot (⟨[], []⟩ : MonState).snapshots u1c.user_id = [] ∧
    env1c.err = none ∧
    processUser ⟨[], []⟩ u1c env1c =
      Except.ok ⟨[(1, [("Cinema A", ["10:00"])])],
        [(11, "🚨 **New Theatres in Chennai:**\nCinema A")]⟩ := by
  decide

/-- C1 (amended): on the first capture after setup (stored snapshot absent
or `{}`), the code treats every fetched venue as new: if the notify mode is
`THEATRE` or `BOTH` and the signature is non-empty, a notification listing
all venues IS sent and the snapshot stored; a non-empty signature under any
other mode is stored silently; an empty first signature changes nothing.
Only the storing half of the original claim survives — the baseline is
notifiable whenever the mode wants theatres. -/
theorem C1_first_capture (st : MonState) (u : UserRec) (env : UserEnv)
    (h0 : get_snapshot st.snapshots u.user_id = [])
    (h1 : env.err = none) (h2 : env.sendOk = true) :
    (modeWantsTheatres u.notify_mode = true → env.curr ≠ [] →
      processUser st u env =
        Except.ok ⟨save_snapshot st.snapshots u.user_id env.curr,
          st.sentMsgs ++ [(u.chat_id, buildMsg u.city (env.curr.map Prod.fst))]⟩) ∧
    (modeWantsTheatres u.notify_mode = false → env.curr ≠ [] →
      processUser st u env =
        Except.ok { st with snapshots := save_snapshot st.snapshots u.user_id env.curr }) ∧
    (env.curr = [] → processUser st u env = Except.ok st) := by
  obtain ⟨curr, err, sendOk⟩ := env
  cases h1
  cases h2
  refine ⟨?_, ?_, ?_⟩
  · intro hm hc
    have hnt : newTheatres curr (get_snapshot st.snapshots u.user_id) = curr.map Prod.fst := by
      rw [h0, newTheatres_nil_right]
    have hne : (newTheatres curr (get_snapshot st.snapshots u.user_id)).isEmpty = false := by
      rw [hnt]
      rw [Bool.eq_false_iff]
      intro hemp
      exact hc (List.map_eq_nil_iff.mp (List.isEmpty_iff.mp hemp))
    have hmsg := monitorMsg_of_notifiable st u ⟨curr, none, true⟩
      (by simp [hm, hne])
    simp only [processUser, errFalsy, hmsg, buildMsg_beq_empty]
    simp [hnt]
  · intro hm hc
    have hmsg := monitorMsg_of_mode_false st u ⟨curr, none, true⟩ hm
    have hne : dictEqB curr (get_snapshot st.snapshots u.user_id) = false := by
      rw [h0]
      exact dictEqB_nil_right curr hc
    simp only [processUser, errFalsy, hmsg]
    simp [hne]
  · intro hc
    cases hc
    have hmsg := monitorMsg_of_no_new st u ⟨[], none, true⟩
      (by rw [h0]; rfl)
    have heq : dictEqB ([] : Sig) (get_snapshot st.snapshots u.user_id) = true := by
      rw [h0]; rfl
    simp only [processUser, errFalsy, hmsg]
    simp [heq]

def u1w : UserRec := ⟨3, 33, some "Film", some "https://x", some "Mumbai", some "SHOW", 1⟩

def env1w : UserEnv := ⟨[("Cinema C", ["14:00"])], none, true⟩

theorem C1_witness :
    get_snapshot (⟨[], []⟩ : MonState).snapshots u1w.user_id = [] ∧
    env1w.err = none ∧ env1w.sendOk = true ∧
    modeWantsTheatres u1w.notify_mode = false ∧ env1w.curr ≠ [] ∧
    processUser ⟨[], []⟩ u1w env1w =
      Except.ok { (⟨[], []⟩ : MonState) with
        snapshots := save_snapshot (⟨[], []⟩ : MonState).snapshots u1w.user_id env1w.curr } :=
  ⟨rfl, rfl, rfl, by decide, by decide,
    ((C1_first_capture ⟨[], []⟩ u1w env1w rfl rfl rfl).2.1 (by decide) (by decide))⟩

/-! ## C3 -/

def u3 : UserRec := ⟨7, 77, some "Film", some "https://x", some "Hyderabad", some "THEATRE", 1⟩

def st3 : MonState := ⟨[(7, [("Old Cinema", ["09:00"])])], []⟩

def env3 : UserEnv :=
  ⟨[("Old Cinema", ["09:00"]), ("New Venue", ["12:00"])], none, false⟩

/-- C3 counterexample: a notifiable diff (new venue under mode `THEATRE`)
whose `send_message` raises.  The snapshot write is skipped — the cycle
aborts with the old snapshot still stored — so a failed notify call does
drop the underlying snapshot update, contradicting the claim. -/
theorem C3_counterexample :
    runCycle st3 [(u3, env3)] = (st3, true) ∧
    get_snapshot (runCycle st3 [(u3, env3)]).1.snapshots u3.user_id =
      [("Old Cinema", ["09:00"])] ∧
    get_snapshot (runCycle st3 [(u3, env3)]).1.snapshots u3.user_id ≠ env3.curr := by
  decide

/-- C3 (amended): on a notifiable diff the snapshot is persisted only when
the notification call returns; `send_message` precedes `save_snapshot` in
the body, so when delivery raises the write is skipped and the exception
aborts the cycle. -/
theorem C3_snapshot_follows_send (st : MonState) (u : UserRec) (env : UserEnv)
    (h1 : env.err = none)
    (hc : (modeWantsTheatres u.notify_mode &&
      !(newTheatres env.curr (get_snapshot st.snapshots u.user_id)).isEmpty) = true) :
    (env.sendOk = true →
      processUser st u env =
        Except.ok ⟨save_snapshot st.snapshots u.user_id env.curr,
          st.sentMsgs ++ [(u.chat_id,
            buildMsg u.city (newTheatres env.curr (get_snapshot st.snapshots u.user_id)))]⟩) ∧
    (env.sendOk = false → processUser st u env = Except.error ()) := by
  obtain ⟨curr, err, sendOk⟩ := env
  cases h1
  have hmsg := monitorMsg_of_notifiable st u ⟨curr, none, sendOk⟩ hc
  constructor
  · intro hs
    cases hs
    simp only [processUser, errFalsy, hmsg, buildMsg_beq_empty]
    simp
  · intro hs
    cases hs
    simp only [processUser, errFalsy, hmsg, buildMsg_beq_empty]
    simp

theorem C3_witness :
    env3.err = none ∧
    (modeWantsTheatres u3.notify_mode &&
      !(newTheatres env3.curr (get_snapshot st3.snapshots u3.user_id)).isEmpty) = true ∧
    env3.sendOk = false ∧
    processUser st3 u3 env3 = Except.error () :=
  ⟨rfl, by decide, rfl,
    (C3_snapshot_follows_send st3 u3 env3 rfl (by decide)).2 rfl⟩

/-! ## C4 -/

def u4both : UserRec := ⟨4, 44, some "Film", some "https://x", some "Mumbai", some "BOTH", 1⟩

def u4theatre : UserRec := ⟨4, 44, some "Film", some "https://x", some "Mumbai", some "THEATRE", 1⟩

def st4 : MonState := ⟨[(4, [("Cinema A", ["10:00"])])], []⟩

def env4 : UserEnv := ⟨[("Cinema A", ["10:00", "18:00"])], none, true⟩

/-- C4: evaluation of the code at the claimed scenario.  Previous
`Cinema A ↦ [10:00]`, current `Cinema A ↦ [10:00, 18:00]`: under notify
mode `BOTH` (and likewise `THEATRE`) the loop body sends no message at all
and silently stores the new snapshot — the code diffs venue keys only and
never inspects show times, so the slot-only change the claim (and the
`Shows` / `Both` notify options offered by the bot's own setup dialogue)
would make notifiable is not notifiable in the code. -/
theorem C4_slot_change_not_notified :
    processUser st4 u4both env4 =
      Except.ok ⟨[(4, [("Cinema A", ["10:00", "18:00"])])], []⟩ ∧
    processUser st4 u4theatre env4 =
      Except.ok ⟨[(4, [("Cinema A", ["10:00", "18:00"])])], []⟩ := by
  decide

/-! ## C7 -/

theorem applyKwargs_user_id (u : UserRec) (kw : UserKwargs) :
    (applyKwargs u kw).user_id = u.user_id := rfl

theorem applyKwargs_idem (u : UserRec) (kw : UserKwargs) :
    applyKwargs (applyKwargs u kw) kw = applyKwargs u kw := by
  obtain ⟨mn, mu, ci, nm⟩ := kw
  cases mn <;> cases mu <;> cases ci <;> cases nm <;> rfl

/-- The per-row UPDATE preserves the row-selection predicate. -/
theorem updRow_pred (uid : Int) (kw : UserKwargs) (u : UserRec) :
    ((if u.user_id == uid then applyKwargs u kw else u).user_id == uid) =
      (u.user_id == uid) := by
  by_cases h : (u.user_id == uid) = true
  · simp [h, applyKwargs_user_id]
  · simp [h]

/-- The per-row UPDATE is idempotent. -/
theorem updRow_idem (uid : Int) (kw : UserKwargs) (u : UserRec) :
    (if (if u.user_id == uid then applyKwargs u kw else u).user_id == uid
      then applyKwargs (if u.user_id == uid then applyKwargs u kw else u) kw
      else (if u.user_id == uid then applyKwargs u kw else u)) =
    (if u.user_id == uid then applyKwargs u kw else u) := by
  by_cases h : (u.user_id == uid) = true
  · simp [h, applyKwargs_user_id, applyKwargs_idem]
  · simp [h]

theorem ensureUser_any (users : List UserRec) (uid chat : Int) :
    (ensureUser users uid chat).any (fun u => u.user_id == uid) = true := by
  rw [ensureUser]
  by_cases h : users.any (fun u => u.user_id == uid) = true
  · rw [if_pos h]; exact h
  · rw [if_neg h, List.any_append]
    have hd : (([defaultUser uid chat] : List UserRec).any
        (fun u => u.user_id == uid)) = true := by
      simp [defaultUser]
    rw [hd, Bool.or_true]

theorem map_updRow_any (users : List UserRec) (uid : Int) (kw : UserKwargs) :
    ((users.map (fun u => if u.user_id == uid then applyKwargs u kw else u)).any
      (fun u => u.user_id == uid)) = users.any (fun u => u.user_id == uid) := by
  rw [List.any_map]
  congr 1
  funext u
  simp only [Function.comp_apply]
  exact updRow_pred uid kw u

theorem find?_map_comm (p : UserRec → Bool) (f : UserRec → UserRec)
    (hf : ∀ u, p (f u) = p u) (l : List UserRec) :
    (l.map f).find? p = (l.find? p).map f := by
  induction l with
  | nil => rfl
  | cons x xs ih =>
    cases hx : p x with
    | true =>
      rw [List.map_cons, List.find?_cons_of_pos _ (by rw [hf x]; exact hx),
        List.find?_cons_of_pos _ hx]
      rfl
    | false =>
      rw [List.map_cons, List.find?_cons_of_neg _ (by simp [hf x, hx]),
        List.find?_cons_of_neg _ (by simp [hx]), ih]

/-- C8: `update_user` is idempotent — a second call with the same arguments
leaves the table exactly as one call, on the insert path (no prior row, as
for `/setup` without `/start`) as well as the update path — and a call
supplying only `notify_mode` on an existing row rewrites just that column,
leaving `movie_name`, `movie_url` and `city` untouched. -/
theorem C8_update_user_idempotent_no_clobber (users : List UserRec)
    (uid chat : Int) (kw : UserKwargs) (r : UserRec) (m : String) :
    update_user (update_user users uid chat kw) uid chat kw =
      update_user users uid chat kw ∧
    (findUser users uid = some r →
      findUser (update_user users uid chat ⟨none, none, none, some m⟩) uid =
        some { r with notify_mode := some m }) := by
  constructor
  · by_cases hkw : kw = noKwargs
    · rw [hkw]
      have e1 : update_user users uid chat noKwargs = ensureUser users uid chat := by
        rw [update_user, if_pos rfl]
      have e2 : update_user (ensureUser users uid chat) uid chat noKwargs =
          ensureUser (ensureUser users uid chat) uid chat := by
        rw [update_user, if_pos rfl]
      rw [e1, e2, ensureUser, if_pos (ensureUser_any users uid chat)]
    · have e1 : update_user users uid chat kw =
          (ensureUser users uid chat).map
            (fun u => if u.user_id == uid then applyKwargs u kw else u) := by
        rw [update_user, if_neg hkw]
      have e2 : update_user ((ensureUser users uid chat).map
            (fun u => if u.user_id == uid then applyKwargs u kw else u)) uid chat kw =
          (ensureUser ((ensureUser users uid chat).map
            (fun u => if u.user_id == uid then applyKwargs u kw else u)) uid chat).map
            (fun u => if u.user_id == uid then applyKwargs u kw else u) := by
        rw [update_user, if_neg hkw]
      have h2 : ensureUser ((ensureUser users uid chat).map
            (fun u => if u.user_id == uid then applyKwargs u kw else u)) uid chat =
          (ensureUser users uid chat).map
            (fun u => if u.user_id == uid then applyKwargs u kw else u) := by
        rw [ensureUser, if_pos]
        rw [map_updRow_any]
        exact ensureUser_any users uid chat
      rw [e1, e2, h2, List.map_map]
      congr 1
      funext u
      simp only [Function.comp_apply]
      exact updRow_idem uid kw u
  · intro h
    rw [findUser] at h
    have hp : (r.user_id == uid) = true := by
      have hx := List.find?_some h
      exact hx
    have hany : users.any (fun u => u.user_id == uid) = true :=
      List.any_eq_true.mpr ⟨r, List.mem_of_find?_eq_some h, hp⟩
    have hkm : (⟨none, none, none, some m⟩ : UserKwargs) ≠ noKwargs := by
      intro hh
      exact Option.some_ne_none m (congrArg UserKwargs.notify_mode hh)
    rw [update_user, if_neg hkm, ensureUser, if_pos hany, findUser,
      find?_map_comm _ _ (updRow_pred uid ⟨none, none, none, some m⟩), h]
    simp only [Option.map_some']
    rw [if_pos hp]
    rfl

def r8 : UserRec := ⟨8, 88, some "Movie", some "https://m", some "Chennai", some "BOTH", 1⟩

theorem C8_witness :
    findUser ([] : List UserRec) 9 = none ∧
    update_user (update_user ([] : List UserRec) 9 99
        ⟨some "Movie", some "https://m", some "Chennai", some "BOTH"⟩) 9 99
        ⟨some "Movie", some "https://m", some "Chennai", some "BOTH"⟩ =
      update_user ([] : List UserRec) 9 99
        ⟨some "Movie", some "https://m", some "Chennai", some "BOTH"⟩ ∧
    findUser [r8] 8 = some r8 ∧
    findUser (update_user [r8] 8 88 ⟨none, none, none, some "SHOW"⟩) 8 =
      some { r8 with notify_mode := some "SHOW" } :=
  ⟨rfl,
    (C8_update_user_idempotent_no_clobber [] 9 99
      ⟨some "Movie", some "https://m", some "Chennai", some "BOTH"⟩ r8 "SHOW").1,
    rfl,
    (C8_update_user_idempotent_no_clobber [r8] 8 88 noKwargs r8 "SHOW").2 rfl⟩

/-! ## C10 -/

theorem find?_append_none {l1 l2 : List UserRec} {p : UserRec → Bool}
    (h : l1.find? p = none) : (l1 ++ l2).find? p = l2.find? p := by
  induction l1 with
  | nil => rfl
  | cons x xs ih =>
    cases hx : p x with
    | true =>
      rw [List.find?_cons_of_pos _ hx] at h
      exact Option.noConfusion h
    | false =>
      rw [List.find?_cons_of_neg _ (by simp [hx])] at h
      rw [List.cons_append, List.find?_cons_of_neg _ (by simp [hx])]
      exact ih h

/-- C10: the row created by `/start` alone (`update_user` with no kwargs on
an absent `user_id`) has `is_active = 1` by column default but
`movie_url` NULL; `get_active_users` — the monitor's work-list query —
filters on `movie_url IS NOT NULL`, so the row is never returned: the
active list is unchanged and contains no row with this `user_id`, hence the
monitor loop never fetches for it before setup completes. -/
theorem C10_start_row_not_monitored (users : List UserRec) (uid chat : Int)
    (h : findUser users uid = none) :
    findUser (update_user users uid chat noKwargs) uid = some (defaultUser uid chat) ∧
    (defaultUser uid chat).is_active = 1 ∧
    (defaultUser uid chat).movie_url = none ∧
    get_active_users (update_user users uid chat noKwargs) = get_active_users users ∧
    ∀ u ∈ get_active_users (update_user users uid chat noKwargs), u.user_id ≠ uid := by
  rw [findUser] at h
  have hany : users.any (fun u => u.user_id == uid) = false := by
    rw [List.any_eq_false]
    exact List.find?_eq_none.mp h
  have hupd : update_user users uid chat noKwargs =
      users ++ [defaultUser uid chat] := by
    rw [update_user, if_pos rfl, ensureUser,
      if_neg (by rw [hany]; exact Bool.false_ne_true)]
  refine ⟨?_, rfl, rfl, ?_, ?_⟩
  · rw [hupd, findUser, find?_append_none h,
      List.find?_cons_of_pos _ (by simp [defaultUser])]
  · rw [hupd, get_active_users, List.filter_append]
    have hd : List.filter (fun u => u.is_active == 1 && u.movie_url.isSome)
        [defaultUser uid chat] = [] := by
      simp [defaultUser]
    rw [hd, List.append_nil]
    rfl
  · intro u hu
    rw [hupd, get_active_users] at hu
    obtain ⟨hmem, hpred⟩ := List.mem_filter.mp hu
    rcases List.mem_append.mp hmem with hm | hm
    · have hne := List.find?_eq_none.mp h u hm
      intro heq
      exact hne (by rw [heq]; exact beq_self_eq_true uid)
    · have hd : u = defaultUser uid chat := List.mem_singleton.mp hm
      rw [hd] at hpred
      simp [defaultUser] at hpred

theorem C10_witness :
    findUser ([] : List UserRec) 1 = none ∧
    findUser (update_user [] 1 2 noKwargs) 1 = some (defaultUser 1 2) ∧
    ∀ u ∈ get_active_users (update_user [] 1 2 noKwargs), u.user_id ≠ 1 :=
  ⟨rfl, (C10_start_row_not_monitored [] 1 2 rfl).1,
    (C10_start_row_not_monitored [] 1 2 rfl).2.2.2.2⟩

end BmsBot
